import Mathlib

/-!
Verification of the smart-prior-auth repository against its specification.

The repository ships the intake frontend (src/frontend/app.js and the inline
copy of the same script in index.html) and documentation. The decision
pipeline itself (lambda_function.py: categorizer, rule engine, prompt builder,
decision extractor) is described by the README and the specification but its
source is not in the repository, so those components are modelled from the
specification text. The frontend functions submitForApproval, displayResults
and showResult are embedded directly from src/frontend/app.js.
-/

namespace PriorAuth

/-! ## Generic character-list helpers (JS String.prototype.includes) -/

/-- Boolean test: the first list is a leading segment of the second. -/
def leadsIn : List Char → List Char → Bool
  | [], _ => true
  | _ :: _, [] => false
  | a :: as, b :: bs => a == b && leadsIn as bs

/-- Substring search on character lists; hasSub hay needle is true when
needle occurs contiguously inside hay. Mirrors JS String.includes. -/
def hasSub (hay needle : List Char) : Bool :=
  match hay with
  | [] => needle.isEmpty
  | _ :: t => leadsIn needle hay || hasSub t needle

/-- JS s.includes(sub) on Lean strings. -/
def jsIncludes (s sub : String) : Bool :=
  hasSub s.toList sub.toList

/-! ## Treatment Categorizer (spec 4.1).
Modelled from the spec: lambda_function.py is not in the repository; the
definitions below follow spec section 4.1 word for word: trim and
case-normalize, scan an ordered (category, keyword-set) list with the most
specific categories first, first match wins, default to other. -/

/-- The closed treatment-category enumeration of spec section 3. -/
inductive Category where
  | mri
  | diabetes_medication
  | physical_therapy
  | surgery
  | oncology
  | mental_health
  | other
  deriving DecidableEq, Repr

/-- All members of the closed enumeration. -/
def allCategories : List Category :=
  [Category.mri, Category.diabetes_medication, Category.physical_therapy,
   Category.surgery, Category.oncology, Category.mental_health, Category.other]

/-- Modelled from the spec: the ordered keyword table of spec 4.1, most
specific categories first (oncology before generic medication). Every keyword
is a non-empty lowercase phrase. -/
def keywordTable : List (Category × List String) :=
  [(Category.oncology, ["oncology", "chemotherapy", "cancer", "radiation"]),
   (Category.mental_health, ["mental health", "psychiatric", "counseling"]),
   (Category.mri, ["mri", "magnetic resonance"]),
   (Category.diabetes_medication, ["ozempic", "insulin", "metformin", "diabetes"]),
   (Category.physical_therapy, ["physical therapy", "physiotherapy", "rehabilitation"]),
   (Category.surgery, ["surgery", "surgical", "operation"])]

/-- Trim leading and trailing whitespace from a character list. -/
def trimChars (l : List Char) : List Char :=
  ((l.dropWhile Char.isWhitespace).reverse.dropWhile Char.isWhitespace).reverse

/-- Normalization of spec 4.1: trim, then case-normalize. -/
def normalizeText (s : String) : List Char :=
  (trimChars s.toList).map Char.toLower

/-- Core of the categorizer: first table entry with a matching keyword wins,
otherwise the default category other. -/
def categorizeChars (t : List Char) : Category :=
  match keywordTable.find? (fun p => p.2.any (fun kw => hasSub t kw.toList)) with
  | some p => p.1
  | none => Category.other

/-- Modelled from the spec: categorize of spec 4.1, a pure total function
from free text to the closed category enumeration. -/
def categorize (s : String) : Category :=
  categorizeChars (normalizeText s)

/-! ## Decision Extractor (spec 4.4).
Modelled from the spec: lambda_function.py is not in the repository; the
state machine below follows spec section 4.4: Invoke, Locate (balanced-brace
scan for the first JSON object), Parse (deserialization, abstracted as a
parameter), Validate, Accept, Fallback. -/

/-- A deserialized model-output object: each DecisionRecord field may be
present or absent. -/
structure ParsedObj where
  decision : Option String
  confidence_score : Option Int
  reason : Option String
  missing_documentation : Option (List String)
  alternative_treatments : Option (List String)
  appeal_guidance : Option String
  deriving DecidableEq

/-- The extractor's partial decision record (spec 4.4: the three
pipeline-filled fields are added later by the Orchestrator). -/
structure DecisionPartial where
  decision : String
  reason : String
  confidenceScore : Int
  missingDocumentation : List String
  alternativeTreatments : List String
  appealGuidance : String
  deriving DecidableEq

/-- The three legal decision values of spec section 3. -/
def validDecisions : List String :=
  ["APPROVED", "DENIED", "PENDING"]

/-- Modelled from the spec: the Fallback record of spec 4.4, a PENDING
decision with a fixed explanatory reason, zero confidence, and empty
documentation, alternatives and appeal fields. -/
def fallbackRecord : DecisionPartial :=
  { decision := "PENDING"
    reason := "Automated analysis incomplete, manual review required"
    confidenceScore := 0
    missingDocumentation := []
    alternativeTreatments := []
    appealGuidance := "" }

/-- Clamp a confidence score into the closed interval 0..100 (spec 4.4). -/
def clampScore (n : Int) : Int :=
  max 0 (min 100 n)

/-- Balanced-brace scanner: consume characters at depth d inside an object,
returning the accumulated object text when the opening brace is balanced. -/
def scanBal : List Char → Nat → List Char → Option (List Char)
  | [], _, _ => none
  | c :: rest, d, acc =>
    if c = '\x7b' then scanBal rest (d + 1) (c :: acc)
    else if c = '\x7d' then
      match d with
      | 0 => none
      | 1 => some (c :: acc).reverse
      | Nat.succ (Nat.succ e) => scanBal rest (Nat.succ e) (c :: acc)
    else scanBal rest d (c :: acc)

/-- Locate step of spec 4.4: find the first balanced-brace JSON object in the
raw model text, tolerating surrounding prose; none when no object exists. -/
def locateJson : List Char → Option (List Char)
  | [] => none
  | c :: rest => if c = '\x7b' then scanBal rest 1 [c] else locateJson rest

/-- Validate step of spec 4.4: decision must be present and one of the three
enum values, confidence is clamped into 0..100, absent optional fields
default to empty; otherwise Fallback. -/
def validateObj (o : ParsedObj) : DecisionPartial :=
  match o.decision with
  | none => fallbackRecord
  | some d =>
    if d ∈ validDecisions then
      { decision := d
        reason := o.reason.getD ""
        confidenceScore := clampScore (o.confidence_score.getD 0)
        missingDocumentation := o.missing_documentation.getD []
        alternativeTreatments := o.alternative_treatments.getD []
        appealGuidance := o.appeal_guidance.getD "" }
    else fallbackRecord

/-- Modelled from the spec: the Decision Extractor of spec 4.4. The invoke
result is none on a transport or timeout failure; de abstracts JSON
deserialization of the located object text (none on malformed JSON). -/
def extract (de : List Char → Option ParsedObj) :
    Option (List Char) → DecisionPartial
  | none => fallbackRecord
  | some raw =>
    match locateJson raw with
    | none => fallbackRecord
    | some j =>
      match de j with
      | none => fallbackRecord
      | some o => validateObj o

/-! ## Frontend model, embedded from src/frontend/app.js -/

/-- The nine option values of the insurance selector in
src/frontend/index.html, in document order. -/
def insuranceOptions : List String :=
  ["aetna", "bcbs", "cigna", "humana", "kaiser", "united", "medicare",
   "medicaid", "other"]

/-- The form inputs read by submitForApproval: the three text inputs and the
selected file (none when no file has been chosen). -/
structure FormState where
  treatmentType : String
  insuranceSelect : String
  patientName : String
  selectedFile : Option String
  deriving DecidableEq

/-- The payload object built in submitForApproval. patient_name is none when
the input is empty, mirroring the JS expression value or-else undefined. -/
structure Payload where
  document : String
  insurance_type : String
  treatment_type : String
  patient_name : Option String
  deriving DecidableEq

/-- Payload construction from app.js lines 88-93. -/
def mkPayload (b64 : String) (form : FormState) : Payload :=
  { document := b64
    insurance_type := form.insuranceSelect
    treatment_type := form.treatmentType
    patient_name := if form.patientName = "" then none else some form.patientName }

/-- The key set of JSON.stringify on the payload: keys with undefined values
are dropped, so patient_name appears only when present. -/
def payloadKeys (p : Payload) : List String :=
  ["document", "insurance_type", "treatment_type"] ++
    match p.patient_name with
    | some _ => ["patient_name"]
    | none => []

/-- The ai_analysis object of a pipeline response as displayResults reads it;
each field may be absent. -/
structure Analysis where
  decision : Option String
  confidence_score : Option Int
  reason : Option String
  missing_documentation : Option (List String)
  alternative_treatments : Option (List String)
  appeal_guidance : Option String
  deriving DecidableEq

/-- A parsed response body as the client reads it. -/
structure ResponseData where
  ai_analysis : Option Analysis
  request_id : Option String
  error : Option String
  next_steps : Option (List String)
  deriving DecidableEq

/-- JS truthiness of an optional string: present and non-empty. -/
def jsTruthy (o : Option String) : Bool :=
  match o with
  | some s => !(s == "")
  | none => false

/-- The message of the Error thrown on a non-ok response in app.js line 107:
data.error when truthy, else the fixed text. -/
def jsErrorOr (err : Option String) : String :=
  match err with
  | some e => if e = "" then "Failed to process request" else e
  | none => "Failed to process request"

/-- The three renderings displayResults can produce, with the response fields
each branch interpolates into the result div. -/
inductive Render where
  | approved (conf : Option Int) (reason : Option String) (note : List String)
  | denied (conf : Option Int) (reason : Option String) (alts : List String)
      (appeal : Option String)
  | processing (steps : List String)
  deriving DecidableEq

/-- The else-branch of displayResults (app.js lines 159-169): accessing
next_steps.map throws a TypeError when next_steps is absent. -/
def processingRender (data : ResponseData) : Except String Render :=
  match data.next_steps with
  | none => Except.error "TypeError: data.next_steps is undefined"
  | some steps => Except.ok (Render.processing steps)

/-- displayResults from app.js lines 127-170. Accessing length of an absent
array field throws a TypeError, modelled as Except.error. -/
def displayResults (data : ResponseData) : Except String Render :=
  match data.ai_analysis with
  | none => processingRender data
  | some a =>
    if jsTruthy a.decision then
      if jsIncludes (a.decision.getD "") "APPROVED" then
        match a.missing_documentation with
        | none => Except.error "TypeError: missing_documentation is undefined"
        | some md => Except.ok (Render.approved a.confidence_score a.reason md)
      else
        match a.alternative_treatments with
        | none => Except.error "TypeError: alternative_treatments is undefined"
        | some alts =>
          Except.ok (Render.denied a.confidence_score a.reason alts a.appeal_guidance)
    else processingRender data

/-- How one call of submitForApproval ends: an early validation message via
showResult, a successful displayResults rendering, or an error message shown
by the catch block via showResult. -/
inductive Outcome where
  | validationError (msg : String)
  | displayed (r : Render)
  | errorShown (msg : String)
  deriving DecidableEq

/-- Observable trace of one submitForApproval call: the outcome, whether
fetch and displayResults were invoked, the payload handed to fetch, whether
the loading state was entered, and the final submit-button and spinner
state. -/
structure Trace where
  outcome : Outcome
  fetchCalled : Bool
  displayCalled : Bool
  payloadSent : Option Payload
  loadingEntered : Bool
  btnDisabledFinal : Bool
  spinnerShownFinal : Bool
  deriving DecidableEq

/-- The environment of one call: the result of reading the selected file as
base64, and the result of the fetch (a network failure, or a response whose
body may fail JSON parsing). -/
structure JsResponse where
  ok : Bool
  jsonBody : Except String ResponseData

/-- External effects: readFileAsBase64 and fetch plus response.json(). -/
structure Env where
  readResult : Except String String
  fetchResult : Except String JsResponse

/-- The try/catch body of submitForApproval (app.js lines 83-111), entered
after validation: button disabled and spinner shown (the loading state holds
at the end of the try/catch, before finally runs). -/
def tryBlock (form : FormState) (env : Env) : Trace :=
  match env.readResult with
  | Except.error e =>
    { outcome := Outcome.errorShown ("Error: " ++ e)
      fetchCalled := false, displayCalled := false, payloadSent := none
      loadingEntered := true, btnDisabledFinal := true, spinnerShownFinal := true }
  | Except.ok b64 =>
    match env.fetchResult with
    | Except.error e =>
      { outcome := Outcome.errorShown ("Error: " ++ e)
        fetchCalled := true, displayCalled := false
        payloadSent := some (mkPayload b64 form)
        loadingEntered := true, btnDisabledFinal := true, spinnerShownFinal := true }
    | Except.ok resp =>
      match resp.jsonBody with
      | Except.error e =>
        { outcome := Outcome.errorShown ("Error: " ++ e)
          fetchCalled := true, displayCalled := false
          payloadSent := some (mkPayload b64 form)
          loadingEntered := true, btnDisabledFinal := true, spinnerShownFinal := true }
      | Except.ok data =>
        if resp.ok then
          match displayResults data with
          | Except.ok r =>
            { outcome := Outcome.displayed r
              fetchCalled := true, displayCalled := true
              payloadSent := some (mkPayload b64 form)
              loadingEntered := true, btnDisabledFinal := true, spinnerShownFinal := true }
          | Except.error e =>
            { outcome := Outcome.errorShown ("Error: " ++ e)
              fetchCalled := true, displayCalled := true
              payloadSent := some (mkPayload b64 form)
              loadingEntered := true, btnDisabledFinal := true, spinnerShownFinal := true }
        else
          { outcome := Outcome.errorShown ("Error: " ++ jsErrorOr data.error)
            fetchCalled := true, displayCalled := false
            payloadSent := some (mkPayload b64 form)
            loadingEntered := true, btnDisabledFinal := true, spinnerShownFinal := true }

/-- The finally block of app.js lines 112-115: re-enable the submit button
and hide the spinner, on every path out of the try/catch. -/
def applyFinally (t : Trace) : Trace :=
  { t with btnDisabledFinal := false, spinnerShownFinal := false }

/-- submitForApproval from app.js lines 66-116: the two fail-fast validation
checks, then the try/catch body followed by the finally block. The early
returns leave the initial UI state (button enabled, spinner hidden). -/
def submitForApproval (form : FormState) (env : Env) : Trace :=
  if form.treatmentType = "" then
    { outcome := Outcome.validationError "Please specify the treatment type"
      fetchCalled := false, displayCalled := false, payloadSent := none
      loadingEntered := false, btnDisabledFinal := false, spinnerShownFinal := false }
  else
    match form.selectedFile with
    | none =>
      { outcome := Outcome.validationError "Please select a medical document"
        fetchCalled := false, displayCalled := false, payloadSent := none
        loadingEntered := false, btnDisabledFinal := false, spinnerShownFinal := false }
    | some _ => applyFinally (tryBlock form env)

/-! ## Concrete fixtures used by the witness theorems -/

/-- A filled-in intake form: non-empty treatment, a chosen provider, a
patient name, and a selected file. -/
def sampleForm : FormState :=
  { treatmentType := "MRI Knee", insuranceSelect := "aetna"
    patientName := "Alice", selectedFile := some "doc" }

/-- A form whose treatment-type input is empty. -/
def emptyForm : FormState :=
  { treatmentType := "", insuranceSelect := "aetna"
    patientName := "", selectedFile := none }

/-- A parsed error body, as the pipeline returns on validation failure. -/
def sampleErrData : ResponseData :=
  { ai_analysis := none, request_id := none
    error := some "Bad request", next_steps := none }

/-- An environment where the file reads fine and the server answers with a
non-2xx status and the error body above. -/
def sampleEnvNonOk : Env :=
  { readResult := Except.ok "ZG9j"
    fetchResult := Except.ok { ok := false, jsonBody := Except.ok sampleErrData } }

/-- A well-formed ai-analysis object carrying the conservative PENDING
fallback decision. -/
def sampleAnalysis : Analysis :=
  { decision := some "PENDING", confidence_score := some 0
    reason := some "manual review", missing_documentation := some []
    alternative_treatments := some [], appeal_guidance := some "" }

/-- An ok response body wrapping sampleAnalysis. -/
def sampleOkData : ResponseData :=
  { ai_analysis := some sampleAnalysis, request_id := some "req_1"
    error := none, next_steps := none }

/-! ## Helper lemmas -/

/-- Normalization of an all-whitespace string is empty. -/
lemma normalizeText_ws (s : String) (h : ∀ c ∈ s.toList, c.isWhitespace) :
    normalizeText s = [] := by
  unfold normalizeText trimChars
  rw [List.dropWhile_eq_nil_iff.mpr h]
  rfl

/-- The finally block does not change the outcome. -/
lemma applyFinally_outcome (t : Trace) : (applyFinally t).outcome = t.outcome :=
  rfl

/-- With both validations passed, submitForApproval is the try/catch body
followed by the finally block. -/
lemma submit_eq_tryBlock (form : FormState) (env : Env) (f : String)
    (ht : form.treatmentType ≠ "") (hf : form.selectedFile = some f) :
    submitForApproval form env = applyFinally (tryBlock form env) := by
  unfold submitForApproval
  rw [if_neg ht, hf]

/-- The try/catch body always ends in a successful rendering or an error
message: no other outcome is reachable. -/
lemma tryBlock_outcome_shape (form : FormState) (env : Env) :
    (∃ r, (tryBlock form env).outcome = Outcome.displayed r)
    ∨ (∃ m, (tryBlock form env).outcome = Outcome.errorShown m) := by
  obtain ⟨rr, fr⟩ := env
  cases rr with
  | error e => exact Or.inr ⟨_, rfl⟩
  | ok b64 =>
    cases fr with
    | error e => exact Or.inr ⟨_, rfl⟩
    | ok resp =>
      obtain ⟨rok, body⟩ := resp
      cases body with
      | error e => exact Or.inr ⟨_, rfl⟩
      | ok data =>
        cases rok with
        | false => exact Or.inr ⟨_, rfl⟩
        | true =>
          cases hd : displayResults data with
          | ok r => exact Or.inl ⟨r, by simp [tryBlock, hd]⟩
          | error e => exact Or.inr ⟨"Error: " ++ e, by simp [tryBlock, hd]⟩

/-- Once the file has been read, the payload handed to fetch is the one
mkPayload builds, on every path of the try body. -/
lemma tryBlock_payload (form : FormState) (env : Env) (b64 : String)
    (hr : env.readResult = Except.ok b64) :
    (tryBlock form env).payloadSent = some (mkPayload b64 form) := by
  obtain ⟨rr, fr⟩ := env
  have hrr : rr = Except.ok b64 := hr
  subst hrr
  cases fr with
    | error e => rfl
    | ok resp =>
      obtain ⟨rok, body⟩ := resp
      cases body with
      | error e => rfl
      | ok data =>
        cases rok with
        | false => rfl
        | true =>
          cases hd : displayResults data with
          | ok r => simp [tryBlock, hd]
          | error e => simp [tryBlock, hd]

/-! ## Claim theorems -/

/-- C1: every failure of the model path — a model invocation timeout or
transport failure, a response with no JSON object, a parsed object missing
the decision field, or a decision value outside the three-value enum — makes
the Decision Extractor return the fixed fallback record: decision PENDING,
confidence 0, the fixed explanatory reason, and empty documentation,
alternatives and appeal fields. -/
theorem c1_extractor_fallback
    (de0 deN deM : List Char → Option ParsedObj)
    (rawN rawJ j : List Char) (oN oM : ParsedObj) (d : String) :
    extract de0 none = fallbackRecord
    ∧ (locateJson rawN = none → extract de0 (some rawN) = fallbackRecord)
    ∧ (locateJson rawJ = some j → deN j = some oN → oN.decision = none →
        extract deN (some rawJ) = fallbackRecord)
    ∧ (locateJson rawJ = some j → deM j = some oM → oM.decision = some d →
        d ∉ validDecisions → extract deM (some rawJ) = fallbackRecord)
    ∧ fallbackRecord.decision = "PENDING"
    ∧ fallbackRecord.confidenceScore = 0
    ∧ fallbackRecord.reason = "Automated analysis incomplete, manual review required"
    ∧ fallbackRecord.missingDocumentation = []
    ∧ fallbackRecord.alternativeTreatments = []
    ∧ fallbackRecord.appealGuidance = "" := by
  refine ⟨rfl, ?_, ?_, ?_, rfl, rfl, rfl, rfl, rfl, rfl⟩
  · intro h
    simp only [extract, h]
  · intro h1 h2 h3
    simp only [extract, h1, h2, validateObj, h3]
  · intro h1 h2 h3 h4
    simp only [extract, h1, h2, validateObj, h3]
    rw [if_neg h4]

/-- C1 witness: the four failure modes at concrete inputs — a timeout, a
brace-free response, a parse yielding an object without a decision field,
and a parse yielding decision MAYBE. -/
theorem c1_extractor_fallback_witness :
    extract (fun _ => none) none = fallbackRecord
    ∧ extract (fun _ => none) (some ['n', 'o']) = fallbackRecord
    ∧ extract (fun _ => some ⟨none, none, none, none, none, none⟩)
        (some ['x', '\x7b', 'a', '\x7d']) = fallbackRecord
    ∧ extract (fun _ => some ⟨some "MAYBE", none, none, none, none, none⟩)
        (some ['x', '\x7b', 'a', '\x7d']) = fallbackRecord := by
  obtain ⟨p1, p2, p3, p4, -⟩ :=
    c1_extractor_fallback (fun _ => none)
      (fun _ => some ⟨none, none, none, none, none, none⟩)
      (fun _ => some ⟨some "MAYBE", none, none, none, none, none⟩)
      ['n', 'o'] ['x', '\x7b', 'a', '\x7d'] ['\x7b', 'a', '\x7d']
      ⟨none, none, none, none, none, none⟩
      ⟨some "MAYBE", none, none, none, none, none⟩ "MAYBE"
  exact ⟨p1, p2 (by decide), p3 (by decide) rfl rfl, p4 (by decide) rfl rfl (by decide)⟩

/-- C2: a submission with an empty treatment description fails fast — the
outcome is the validation error message, no fetch happens, no payload is
built, and the loading state is never entered. -/
theorem c2_empty_treatment_fails_fast (form : FormState) (env : Env)
    (h : form.treatmentType = "") :
    (submitForApproval form env).outcome =
        Outcome.validationError "Please specify the treatment type"
    ∧ (submitForApproval form env).fetchCalled = false
    ∧ (submitForApproval form env).payloadSent = none
    ∧ (submitForApproval form env).loadingEntered = false := by
  unfold submitForApproval
  rw [if_pos h]
  exact ⟨rfl, rfl, rfl, rfl⟩

/-- C2 witness: the empty form with an arbitrary environment. -/
theorem c2_empty_treatment_fails_fast_witness :
    (submitForApproval emptyForm sampleEnvNonOk).outcome =
        Outcome.validationError "Please specify the treatment type"
    ∧ (submitForApproval emptyForm sampleEnvNonOk).fetchCalled = false
    ∧ (submitForApproval emptyForm sampleEnvNonOk).payloadSent = none
    ∧ (submitForApproval emptyForm sampleEnvNonOk).loadingEntered = false :=
  c2_empty_treatment_fails_fast emptyForm sampleEnvNonOk rfl

/-- C6: categorize is total — it always returns a member of the closed
category enumeration — and on whitespace-only input (hence also the empty
string) it returns the category other. -/
theorem c6_categorize_total (s : String) :
    categorize s ∈ allCategories
    ∧ ((∀ c ∈ s.toList, c.isWhitespace) → categorize s = Category.other) := by
  constructor
  · cases h : categorize s <;> decide
  · intro h
    unfold categorize
    rw [normalizeText_ws s h]
    decide

/-- C6 witness: a whitespace-only input string. -/
theorem c6_categorize_total_witness :
    categorize "   " ∈ allCategories ∧ categorize "   " = Category.other :=
  ⟨(c6_categorize_total "   ").1, (c6_categorize_total "   ").2 (by decide)⟩

/-- C3: once validation has passed, submitForApproval never surfaces a raw
exception: the outcome is exactly one of a successful displayResults
rendering or an error message shown via showResult, and never a validation
error. -/
theorem c3_no_raw_exception (form : FormState) (env : Env) (f : String)
    (ht : form.treatmentType ≠ "") (hf : form.selectedFile = some f) :
    ((∃ r, (submitForApproval form env).outcome = Outcome.displayed r)
      ∨ (∃ m, (submitForApproval form env).outcome = Outcome.errorShown m))
    ∧ (∀ msg, (submitForApproval form env).outcome ≠ Outcome.validationError msg)
    ∧ ¬((∃ r, (submitForApproval form env).outcome = Outcome.displayed r)
        ∧ (∃ m, (submitForApproval form env).outcome = Outcome.errorShown m)) := by
  rw [submit_eq_tryBlock form env f ht hf, applyFinally_outcome]
  have hs := tryBlock_outcome_shape form env
  refine ⟨hs, ?_, ?_⟩
  · intro msg hcontra
    rcases hs with ⟨r, hr⟩ | ⟨m, hm⟩
    · rw [hr] at hcontra
      exact Outcome.noConfusion hcontra
    · rw [hm] at hcontra
      exact Outcome.noConfusion hcontra
  · rintro ⟨⟨r, hr⟩, ⟨m, hm⟩⟩
    rw [hr] at hm
    exact Outcome.noConfusion hm

/-- C3 witness: the sample form against the non-ok environment. -/
theorem c3_no_raw_exception_witness :
    ((∃ r, (submitForApproval sampleForm sampleEnvNonOk).outcome = Outcome.displayed r)
      ∨ (∃ m, (submitForApproval sampleForm sampleEnvNonOk).outcome = Outcome.errorShown m))
    ∧ (∀ msg, (submitForApproval sampleForm sampleEnvNonOk).outcome ≠
        Outcome.validationError msg)
    ∧ ¬((∃ r, (submitForApproval sampleForm sampleEnvNonOk).outcome = Outcome.displayed r)
        ∧ (∃ m, (submitForApproval sampleForm sampleEnvNonOk).outcome =
            Outcome.errorShown m)) :=
  c3_no_raw_exception sampleForm sampleEnvNonOk "doc" (by decide) rfl

/-- C4: on a non-2xx response with a parsed body, the client shows the
body's error message, substituting the fixed text when the field is absent,
and displayResults is never invoked. -/
theorem c4_non_ok_shows_error (form : FormState) (env : Env)
    (f b64 : String) (resp : JsResponse) (data : ResponseData)
    (ht : form.treatmentType ≠ "") (hf : form.selectedFile = some f)
    (hr : env.readResult = Except.ok b64)
    (hfetch : env.fetchResult = Except.ok resp)
    (hok : resp.ok = false)
    (hbody : resp.jsonBody = Except.ok data) :
    (submitForApproval form env).displayCalled = false
    ∧ (submitForApproval form env).outcome =
        Outcome.errorShown ("Error: " ++ jsErrorOr data.error)
    ∧ jsErrorOr none = "Failed to process request"
    ∧ (∀ e, e ≠ "" → jsErrorOr (some e) = e) := by
  rw [submit_eq_tryBlock form env f ht hf]
  obtain ⟨rr, fr⟩ := env
  have hrr : rr = Except.ok b64 := hr
  have hff : fr = Except.ok resp := hfetch
  subst hrr
  subst hff
  obtain ⟨rok, body⟩ := resp
  have hok2 : rok = false := hok
  have hb2 : body = Except.ok data := hbody
  subst hok2
  subst hb2
  refine ⟨rfl, rfl, rfl, ?_⟩
  intro e he
  show (if e = "" then "Failed to process request" else e) = e
  rw [if_neg he]

/-- C4 witness: a 400-style response carrying an error body. -/
theorem c4_non_ok_shows_error_witness :
    (submitForApproval sampleForm sampleEnvNonOk).displayCalled = false
    ∧ (submitForApproval sampleForm sampleEnvNonOk).outcome =
        Outcome.errorShown ("Error: " ++ jsErrorOr sampleErrData.error)
    ∧ jsErrorOr none = "Failed to process request"
    ∧ (∀ e, e ≠ "" → jsErrorOr (some e) = e) :=
  c4_non_ok_shows_error sampleForm sampleEnvNonOk "doc" "ZG9j"
    { ok := false, jsonBody := Except.ok sampleErrData } sampleErrData
    (by decide) rfl rfl rfl rfl rfl

/-- C10: on every path that enters the loading state, the finally block
restores the controls — the submit button ends enabled and the spinner ends
hidden. -/
theorem c10_finally_restores_ui (form : FormState) (env : Env)
    (_h : (submitForApproval form env).loadingEntered = true) :
    (submitForApproval form env).btnDisabledFinal = false
    ∧ (submitForApproval form env).spinnerShownFinal = false := by
  unfold submitForApproval
  split
  · exact ⟨rfl, rfl⟩
  · split
    · exact ⟨rfl, rfl⟩
    · exact ⟨rfl, rfl⟩

/-- C10 witness: a completed submission through the non-ok environment. -/
theorem c10_finally_restores_ui_witness :
    (submitForApproval sampleForm sampleEnvNonOk).btnDisabledFinal = false
    ∧ (submitForApproval sampleForm sampleEnvNonOk).spinnerShownFinal = false :=
  c10_finally_restores_ui sampleForm sampleEnvNonOk (by decide)

/-- C5 counterexample: the payload the form actually submits carries the
keys document, insurance_type, treatment_type and patient_name — it does
not carry the section-3 Request fields requestId and treatmentDescription
claimed for the body. -/
theorem c5_request_shape_counterexample :
    "requestId" ∉ payloadKeys (mkPayload "ZG9j" sampleForm)
    ∧ "treatmentDescription" ∉ payloadKeys (mkPayload "ZG9j" sampleForm)
    ∧ payloadKeys (mkPayload "ZG9j" sampleForm) =
        ["document", "insurance_type", "treatment_type", "patient_name"] := by
  decide

/-- C5 amended: every request body the form submits is a JSON object with
exactly the keys document, insurance_type and treatment_type, plus
patient_name when the patient-name input is non-empty; treatment_type is the
non-empty treatment input, insurance_type is the selector value, and
document is the base64 file content. -/
theorem c5_amended_payload_shape (form : FormState) (env : Env)
    (f b64 : String)
    (ht : form.treatmentType ≠ "") (hf : form.selectedFile = some f)
    (hr : env.readResult = Except.ok b64) :
    (submitForApproval form env).payloadSent = some (mkPayload b64 form)
    ∧ payloadKeys (mkPayload b64 form) =
        ["document", "insurance_type", "treatment_type"] ++
          (if form.patientName = "" then [] else ["patient_name"])
    ∧ (mkPayload b64 form).treatment_type = form.treatmentType
    ∧ (mkPayload b64 form).treatment_type ≠ ""
    ∧ (mkPayload b64 form).insurance_type = form.insuranceSelect
    ∧ (mkPayload b64 form).document = b64 := by
  refine ⟨?_, ?_, rfl, ht, rfl, rfl⟩
  · rw [submit_eq_tryBlock form env f ht hf]
    exact tryBlock_payload form env b64 hr
  · by_cases hp : form.patientName = "" <;> simp [payloadKeys, mkPayload, hp]

/-- C5 amended witness: the sample form through the non-ok environment. -/
theorem c5_amended_payload_shape_witness :
    (submitForApproval sampleForm sampleEnvNonOk).payloadSent =
        some (mkPayload "ZG9j" sampleForm)
    ∧ payloadKeys (mkPayload "ZG9j" sampleForm) =
        ["document", "insurance_type", "treatment_type"] ++
          (if sampleForm.patientName = "" then [] else ["patient_name"])
    ∧ (mkPayload "ZG9j" sampleForm).treatment_type = sampleForm.treatmentType
    ∧ (mkPayload "ZG9j" sampleForm).treatment_type ≠ ""
    ∧ (mkPayload "ZG9j" sampleForm).insurance_type = sampleForm.insuranceSelect
    ∧ (mkPayload "ZG9j" sampleForm).document = "ZG9j" :=
  c5_amended_payload_shape sampleForm sampleEnvNonOk "doc" "ZG9j"
    (by decide) rfl rfl

/-- C7: the insurance selector offers exactly the nine listed provider
values, and the payload's insurance_type is always drawn from them. -/
theorem c7_insurance_enum (form : FormState) (b64 : String)
    (h : form.insuranceSelect ∈ insuranceOptions) :
    insuranceOptions =
      ["aetna", "bcbs", "cigna", "humana", "kaiser", "united", "medicare",
       "medicaid", "other"]
    ∧ (mkPayload b64 form).insurance_type ∈ insuranceOptions :=
  ⟨rfl, h⟩

/-- C7 witness: the sample form selecting aetna. -/
theorem c7_insurance_enum_witness :
    insuranceOptions =
      ["aetna", "bcbs", "cigna", "humana", "kaiser", "united", "medicare",
       "medicaid", "other"]
    ∧ (mkPayload "ZG9j" sampleForm).insurance_type ∈ insuranceOptions :=
  c7_insurance_enum sampleForm "ZG9j" (by decide)

/-- C8: for a well-formed ai_analysis whose decision is one of the three
enum values, the approved rendering is selected exactly when the decision
string has APPROVED as a substring; DENIED and the conservative PENDING
fallback both go through the denied branch. -/
theorem c8_decision_rendering (data : ResponseData) (a : Analysis)
    (d : String) (md alts : List String)
    (ha : data.ai_analysis = some a)
    (hd : a.decision = some d)
    (hv : d ∈ validDecisions)
    (hmd : a.missing_documentation = some md)
    (halts : a.alternative_treatments = some alts) :
    ((∃ c r m, displayResults data = Except.ok (Render.approved c r m)) ↔
        jsIncludes d "APPROVED" = true)
    ∧ (d = "APPROVED" →
        displayResults data =
          Except.ok (Render.approved a.confidence_score a.reason md))
    ∧ (d = "DENIED" ∨ d = "PENDING" →
        displayResults data =
          Except.ok (Render.denied a.confidence_score a.reason alts
            a.appeal_guidance)) := by
  obtain ⟨dai, drid, derr, dns⟩ := data
  obtain ⟨adec, aconf, areas, amd, aalts, aapp⟩ := a
  have h2 : adec = some d := hd
  have h3 : amd = some md := hmd
  have h4 : aalts = some alts := halts
  subst h2
  subst h3
  subst h4
  have h1 : dai = some ⟨some d, aconf, areas, some md, some alts, aapp⟩ := ha
  subst h1
  fin_cases hv
  · have heq : displayResults
        ⟨some ⟨some "APPROVED", aconf, areas, some md, some alts, aapp⟩,
          drid, derr, dns⟩ =
        Except.ok (Render.approved aconf areas md) := rfl
    refine ⟨iff_of_true ⟨aconf, areas, md, heq⟩ (by decide), fun _ => heq, ?_⟩
    rintro (hc | hc) <;> exact absurd hc (by decide)
  · have heq : displayResults
        ⟨some ⟨some "DENIED", aconf, areas, some md, some alts, aapp⟩,
          drid, derr, dns⟩ =
        Except.ok (Render.denied aconf areas alts aapp) := rfl
    refine ⟨iff_of_false ?_ (by decide), ?_, fun _ => heq⟩
    · rintro ⟨c, r, m, hcontra⟩
      rw [heq] at hcontra
      simp at hcontra
    · intro hc
      exact absurd hc (by decide)
  · have heq : displayResults
        ⟨some ⟨some "PENDING", aconf, areas, some md, some alts, aapp⟩,
          drid, derr, dns⟩ =
        Except.ok (Render.denied aconf areas alts aapp) := rfl
    refine ⟨iff_of_false ?_ (by decide), ?_, fun _ => heq⟩
    · rintro ⟨c, r, m, hcontra⟩
      rw [heq] at hcontra
      simp at hcontra
    · intro hc
      exact absurd hc (by decide)

/-- C8 witness: the PENDING fallback record renders through the denied
branch. -/
theorem c8_decision_rendering_witness :
    displayResults sampleOkData =
      Except.ok (Render.denied sampleAnalysis.confidence_score
        sampleAnalysis.reason [] sampleAnalysis.appeal_guidance) :=
  (c8_decision_rendering sampleOkData sampleAnalysis "PENDING" [] []
    rfl rfl (by decide) rfl rfl).2.2 (Or.inr rfl)

/-- C9: the serialized payload carries the patient_name key exactly when the
patient-name input is non-empty, and when present its value is the input
value itself. -/
theorem c9_patient_name_iff (form : FormState) (b64 : String) :
    ("patient_name" ∈ payloadKeys (mkPayload b64 form) ↔ form.patientName ≠ "")
    ∧ (∀ v, (mkPayload b64 form).patient_name = some v → v = form.patientName) := by
  constructor
  · by_cases hp : form.patientName = ""
    · refine iff_of_false ?_ (by simp [hp])
      have hk : payloadKeys (mkPayload b64 form) =
          ["document", "insurance_type", "treatment_type"] := by
        simp [payloadKeys, mkPayload, hp]
      rw [hk]
      decide
    · refine iff_of_true ?_ hp
      have hk : payloadKeys (mkPayload b64 form) =
          ["document", "insurance_type", "treatment_type", "patient_name"] := by
        simp [payloadKeys, mkPayload, hp]
      rw [hk]
      decide
  · intro v hv
    by_cases hp : form.patientName = ""
    · have hn : (mkPayload b64 form).patient_name = none := by
        simp [mkPayload, hp]
      rw [hn] at hv
      exact Option.noConfusion hv
    · have hs : (mkPayload b64 form).patient_name = some form.patientName := by
        simp [mkPayload, hp]
      rw [hs] at hv
      injection hv with h2
      exact h2.symm

/-- C9 witness: the sample form, whose patient-name input is Alice. -/
theorem c9_patient_name_iff_witness :
    ("patient_name" ∈ payloadKeys (mkPayload "ZG9j" sampleForm) ↔
        sampleForm.patientName ≠ "")
    ∧ "Alice" = sampleForm.patientName :=
  ⟨(c9_patient_name_iff sampleForm "ZG9j").1,
   (c9_patient_name_iff sampleForm "ZG9j").2 "Alice" rfl⟩

end PriorAuth
